import Mathlib

/-!
Verification of `tensorflow/python/training/session_run_hook.py`.

The file defines four shapes: `SessionRunHook` (four no-op lifecycle
callbacks), `SessionRunArgs` (a namedtuple of `fetches`, `feed_dict`,
`options`, the last two defaulting to `None`), `SessionRunContext`
(wrapping the original args, the session and a mutable stop flag), and
`SessionRunValues` (a namedtuple of `results`, `options`, `run_metadata`).

Python values are embedded as the dynamic type `PyObj`; Python's `None`
is `PyObj.pynone`.  Mutation of a context is explicit state passing: a
method that mutates `self` returns the method's Python return value
paired with the updated object.  The Python heap of context objects is
modelled as a store from addresses to contexts, so that per-object
(versus module-level) state is expressible.
-/

/-- Dynamic Python values: `None`, integers, strings, lists and dicts.
`fetches` and friends are arbitrary such values — the code never
inspects them. -/
inductive PyObj where
  | pynone : PyObj
  | int : Int → PyObj
  | str : String → PyObj
  | list : List PyObj → PyObj
  | dict : List (PyObj × PyObj) → PyObj


/-- `class SessionRunArgs(collections.namedtuple("SessionRunArgs",
["fetches", "feed_dict", "options"]))` — a namedtuple with three slots. -/
structure SessionRunArgs where
  fetches : PyObj
  feed_dict : PyObj
  options : PyObj


namespace SessionRunArgs

/-- `def __new__(cls, fetches, feed_dict=None, options=None)` with all
three arguments supplied. -/
def new (fetches feed_dict options : PyObj) : SessionRunArgs :=
  ⟨fetches, feed_dict, options⟩

/-- `SessionRunArgs(fetches)` — only the required argument given, the
optional `feed_dict` and `options` take their default `None`. -/
def new1 (fetches : PyObj) : SessionRunArgs :=
  new fetches PyObj.pynone PyObj.pynone

end SessionRunArgs

/-- `class SessionRunValues(collections.namedtuple("SessionRunValues",
["results", "options", "run_metadata"]))` — a plain namedtuple, no
`__new__` override, hence three required fields and no defaults. -/
structure SessionRunValues where
  results : PyObj
  options : PyObj
  run_metadata : PyObj


/-- `def __new__` of the underlying namedtuple: all three fields are
required positionally. -/
def SessionRunValues.new (results options run_metadata : PyObj) : SessionRunValues :=
  ⟨results, options, run_metadata⟩

/-- `class SessionRunContext`: instance attributes `_original_args`,
`_session`, `_stop_requested`, exposed through the read-only properties
`original_args`, `session`, `stop_requested`. -/
structure SessionRunContext where
  original_args : SessionRunArgs
  session : PyObj
  stop_requested : Bool


namespace SessionRunContext

/-- `def __init__(self, original_args, session)`: stores both arguments
and sets `self._stop_requested = False`. -/
def init (original_args : SessionRunArgs) (session : PyObj) : SessionRunContext :=
  ⟨original_args, session, false⟩

/-- `def request_stop(self): self._stop_requested = True` — the method
body has no `return`, so its Python return value is `None`; the updated
object is returned alongside it. -/
def request_stop (c : SessionRunContext) : PyObj × SessionRunContext :=
  (PyObj.pynone, { c with stop_requested := true })

/-- The property read `self._stop_requested`: a pure observation, the
object is handed back unchanged. -/
def read_stop_requested (c : SessionRunContext) : Bool × SessionRunContext :=
  (c.stop_requested, c)

/-- The property read `self._original_args`. -/
def read_original_args (c : SessionRunContext) : SessionRunArgs × SessionRunContext :=
  (c.original_args, c)

/-- The property read `self._session`. -/
def read_session (c : SessionRunContext) : PyObj × SessionRunContext :=
  (c.session, c)

/-- Every operation the class offers on an already-constructed context. -/
inductive Op where
  | requestStop : Op
  | readStop : Op
  | readArgs : Op
  | readSession : Op


/-- Effect of one operation on the context (the observation a read
returns is discarded; only the resulting object state matters here). -/
def Op.apply : Op → SessionRunContext → SessionRunContext
  | Op.requestStop, c => (c.request_stop).2
  | Op.readStop, c => (c.read_stop_requested).2
  | Op.readArgs, c => (c.read_original_args).2
  | Op.readSession, c => (c.read_session).2

/-- Effect of a sequence of operations, applied left to right. -/
def applyOps : List Op → SessionRunContext → SessionRunContext
  | [], c => c
  | op :: ops, c => applyOps ops (op.apply c)

end SessionRunContext

/-- The heap of `SessionRunContext` objects: each address holds its own
context, mirroring that `_stop_requested` is an instance attribute, not
module-level state. -/
def CtxStore : Type := Nat → SessionRunContext

/-- `ctx.request_stop()` performed on the object at address `r`: only
that object's state changes. -/
def CtxStore.requestStopAt (σ : CtxStore) (r : Nat) : CtxStore :=
  fun r' => if r' = r then ((σ r).request_stop).2 else σ r'

/-- The default `SessionRunHook` base class stores no state of its own. -/
structure SessionRunHook where
  mk' ::


namespace SessionRunHook

/-- `def begin(self): pass` — returns `None`, touches nothing. -/
def begin (h : SessionRunHook) : PyObj × SessionRunHook :=
  (PyObj.pynone, h)

/-- `def before_run(self, run_context): return None` — returns `None`
for every context and leaves hook and context untouched. -/
def before_run (h : SessionRunHook) (run_context : SessionRunContext) :
    PyObj × SessionRunHook × SessionRunContext :=
  (PyObj.pynone, h, run_context)

/-- `def after_run(self, run_context, run_values): pass`. -/
def after_run (h : SessionRunHook) (run_context : SessionRunContext)
    (run_values : SessionRunValues) :
    PyObj × SessionRunHook × SessionRunContext × SessionRunValues :=
  (PyObj.pynone, h, run_context, run_values)

/-- `def end(self, session): pass` (`end` is a Lean keyword, hence the
trailing underscore). -/
def end_ (h : SessionRunHook) (session : PyObj) : PyObj × SessionRunHook × PyObj :=
  (PyObj.pynone, h, session)

end SessionRunHook

/-- A concrete `SessionRunArgs`, as in the spec scenario
`RunRequest(fetches="step")`. -/
def sampleArgs : SessionRunArgs :=
  SessionRunArgs.new1 (PyObj.str "step")

/-- A concrete context, `SessionRunContext(sampleArgs, session)`. -/
def sampleCtx : SessionRunContext :=
  SessionRunContext.init sampleArgs (PyObj.int 7)

/-- A heap holding a fresh context at every address. -/
def sampleStore : CtxStore :=
  fun _ => sampleCtx

/-- Helper: no operation on a context ever resets the stop flag — once
true, a whole sequence of `request_stop` calls and property reads keeps
it true. -/
theorem applyOps_preserves_stop :
    ∀ (ops : List SessionRunContext.Op) (c : SessionRunContext),
      c.stop_requested = true →
      (SessionRunContext.applyOps ops c).stop_requested = true := by
  intro ops
  induction ops with
  | nil => intro c h; exact h
  | cons op ops ih =>
    intro c h
    cases op with
    | requestStop => exact ih _ rfl
    | readStop => exact ih _ h
    | readArgs => exact ih _ h
    | readSession => exact ih _ h

/-- C1: the stop flag is `false` immediately after construction,
`true` after any `request_stop()`, a second `request_stop()` changes
nothing (idempotence), and no sequence of the context's operations ever
resets the flag to `false` (monotonicity). -/
theorem sessionRunContext_stop_flag_lifecycle :
    (∀ (a : SessionRunArgs) (s : PyObj),
      (SessionRunContext.init a s).stop_requested = false) ∧
    (∀ c : SessionRunContext, ((c.request_stop).2).stop_requested = true) ∧
    (∀ c : SessionRunContext, ((c.request_stop).2.request_stop).2 = (c.request_stop).2) ∧
    (∀ (c : SessionRunContext) (ops : List SessionRunContext.Op),
      c.stop_requested = true →
      (SessionRunContext.applyOps ops c).stop_requested = true) :=
  ⟨fun _ _ => rfl, fun _ => rfl, fun _ => rfl,
   fun c ops h => applyOps_preserves_stop ops c h⟩

/-- Witness for C1: on a concrete context whose stop flag has been set,
a further `request_stop` and a read leave the flag true. -/
theorem sessionRunContext_stop_flag_lifecycle_witness :
    (SessionRunContext.applyOps
      [SessionRunContext.Op.requestStop, SessionRunContext.Op.readStop]
      ((sampleCtx.request_stop).2)).stop_requested = true :=
  sessionRunContext_stop_flag_lifecycle.2.2.2 (sampleCtx.request_stop).2
    [SessionRunContext.Op.requestStop, SessionRunContext.Op.readStop] rfl

/-- C2: the `original_args` and `session` properties of a context
constructed from `R` and `S` return exactly `R` and `S`. -/
theorem sessionRunContext_accessors_return_constructed :
    ∀ (R : SessionRunArgs) (S : PyObj),
      ((SessionRunContext.init R S).read_original_args).1 = R ∧
      ((SessionRunContext.init R S).read_session).1 = S :=
  fun _ _ => ⟨rfl, rfl⟩

/-- C3: `SessionRunArgs(f)` has `feed_dict = None` and `options = None`,
and `SessionRunArgs(f, d, o)` reads back all three fields unchanged. -/
theorem sessionRunArgs_defaults_and_roundtrip :
    ∀ f d o : PyObj,
      (SessionRunArgs.new1 f).fetches = f ∧
      (SessionRunArgs.new1 f).feed_dict = PyObj.pynone ∧
      (SessionRunArgs.new1 f).options = PyObj.pynone ∧
      (SessionRunArgs.new f d o).fetches = f ∧
      (SessionRunArgs.new f d o).feed_dict = d ∧
      (SessionRunArgs.new f d o).options = o :=
  fun _ _ _ => ⟨rfl, rfl, rfl, rfl, rfl, rfl⟩

/-- C4: `SessionRunValues(r, o, m)` — whose constructor takes three
required fields and (being a plain namedtuple) no defaults — reads back
all three fields unchanged. -/
theorem sessionRunValues_roundtrip :
    ∀ r o m : PyObj,
      (SessionRunValues.new r o m).results = r ∧
      (SessionRunValues.new r o m).options = o ∧
      (SessionRunValues.new r o m).run_metadata = m :=
  fun _ _ _ => ⟨rfl, rfl, rfl⟩

/-- C5: every default callback of `SessionRunHook` returns `None`
(`before_run` returns `None`, i.e. absent; the `pass`-bodied `begin`,
`after_run` and `end` return Python's implicit `None`) and leaves the
hook and all its arguments untouched. -/
theorem sessionRunHook_default_callbacks :
    ∀ (h : SessionRunHook) (c : SessionRunContext) (v : SessionRunValues) (s : PyObj),
      h.begin = (PyObj.pynone, h) ∧
      h.before_run c = (PyObj.pynone, h, c) ∧
      h.after_run c v = (PyObj.pynone, h, c, v) ∧
      h.end_ s = (PyObj.pynone, h, s) :=
  fun _ _ _ _ => ⟨rfl, rfl, rfl, rfl⟩

/-- C6: `SessionRunArgs` construction is total — for every dynamic value
of `fetches` (scalar, list or dict, arbitrarily nested, however
malformed) and every `feed_dict` and `options`, construction yields a
value holding exactly those fields; no validation, no failure. -/
theorem sessionRunArgs_construction_total :
    ∀ f d o : PyObj, ∃ a : SessionRunArgs,
      SessionRunArgs.new f d o = a ∧ a.fetches = f ∧ a.feed_dict = d ∧ a.options = o :=
  fun f d o => ⟨SessionRunArgs.new f d o, rfl, rfl, rfl, rfl⟩

/-- C7: `request_stop()` returns `None` and changes only the stop flag:
`original_args` and `session` are unchanged. -/
theorem request_stop_frame_effect :
    ∀ c : SessionRunContext,
      ((c.request_stop).2).original_args = c.original_args ∧
      ((c.request_stop).2).session = c.session ∧
      (c.request_stop).1 = PyObj.pynone :=
  fun _ => ⟨rfl, rfl, rfl⟩

/-- C8: the stop flag is per-object state: `request_stop()` on the
context at address `i` leaves every other context in the heap unchanged,
while setting the flag of the context at `i`. -/
theorem request_stop_per_context :
    ∀ (σ : CtxStore) (i j : Nat), j ≠ i →
      (σ.requestStopAt i) j = σ j ∧
      ((σ.requestStopAt i) i).stop_requested = true := by
  intro σ i j h
  constructor
  · simp [CtxStore.requestStopAt, h]
  · simp [CtxStore.requestStopAt, SessionRunContext.request_stop]

/-- Witness for C8: in a concrete heap, stopping the context at address
`0` leaves the context at address `1` untouched. -/
theorem request_stop_per_context_witness :
    (1 : Nat) ≠ 0 ∧ (sampleStore.requestStopAt 0) 1 = sampleStore 1 :=
  ⟨by decide, (request_stop_per_context sampleStore 0 1 (by decide)).1⟩

/-- C9: `SessionRunArgs` and `SessionRunValues` have component-wise
(structural) equality: two instances are equal exactly when all their
fields are equal. -/
theorem structural_equality_args_and_values :
    (∀ f d o f' d' o' : PyObj,
      SessionRunArgs.new f d o = SessionRunArgs.new f' d' o' ↔
        f = f' ∧ d = d' ∧ o = o') ∧
    (∀ r o m r' o' m' : PyObj,
      SessionRunValues.new r o m = SessionRunValues.new r' o' m' ↔
        r = r' ∧ o = o' ∧ m = m') := by
  constructor <;> intro a b c a' b' c' <;>
    simp [SessionRunArgs.new, SessionRunValues.new,
      SessionRunArgs.mk.injEq, SessionRunValues.mk.injEq]

/-- C10: reading `stop_requested` never modifies the context, and two
consecutive reads with no intervening `request_stop()` return the same
boolean. -/
theorem stop_requested_pure_read :
    ∀ c : SessionRunContext,
      (c.read_stop_requested).2 = c ∧
      ((c.read_stop_requested).2.read_stop_requested).1 = (c.read_stop_requested).1 :=
  fun _ => ⟨rfl, rfl⟩
